import Mathlib

/-!
Verification development for the gcbase frontend: a shallow embedding of the
client-side data-fetching, pagination and mutation-orchestration layer
(`src/frontend/src/routes/_layout/items.tsx`, the `AddItem` form component, and
the generated HTTP client's service classes), together with theorems settling
the spec's testable properties.

Conventions of the embedding:
* JavaScript values appearing in query keys are embedded as the inductive
  `Json`; values of a URL search object before zod parsing are `JsValue`,
  with missing keys reading as `JsValue.undefined`.
* A network call is embedded as the `RequestOptions` record the generated
  client passes to its `request` core (method, url, path params, query params,
  body) — issuing a call means this record appears in the list of issued
  requests of a run.
* React Query callback order on settlement (`onSuccess`/`onError`, then
  `onSettled`) is embedded by `settleEffects`; effects are interpreted against
  explicit UI-state records by `foldl`.
* Library machinery wired by the source (react-hook-form's `handleSubmit` /
  `isSubmitting`, Chakra's `isLoading` disabling a button, zod's
  `number().catch`) is embedded with its documented semantics at exactly the
  configuration the source passes it.
-/

namespace GcBase

/-- JavaScript/JSON values as they occur in query keys and request bodies. -/
inductive Json where
  | str (s : String)
  | num (n : Int)
  | obj (fields : List (String × Json))
  deriving Repr

/-- JavaScript values as they occur in a URL search object before zod parsing:
a missing key reads as `undefined`. -/
inductive JsValue where
  | num (n : Int)
  | str (s : String)
  | boolean (b : Bool)
  | null
  | undefined
  deriving DecidableEq, Repr

/-- Whether a `JsValue` is a JavaScript number (what `z.number()` accepts). -/
def JsValue.isNumber : JsValue → Bool
  | .num _ => true
  | _ => false

/-- `ItemPublic` from the generated client: the item record rendered by the
items table and details view. -/
structure ItemPublic where
  id : String
  title : String
  description : Option String
  type : String
  status : Option String
  location_id : Option String
  deriving Repr

/-- `ItemsPublic`, the payload of `ItemsService.readItems`: a page of items
plus a count field. -/
structure ItemsPublic where
  data : List ItemPublic
  count : Int
  deriving Repr

/-- `ItemCreate`, the body of `ItemsService.createItem`; the `AddItem` form's
value type with fields title, description, type. -/
structure ItemCreate where
  title : String
  description : String
  type : String
  deriving DecidableEq, Repr

/-- `LogCreate`, the body of `ItemsService.createItemLog`
(`{ item_id: item.id, message: newLogMessage }`). -/
structure LogCreate where
  item_id : String
  message : String
  deriving DecidableEq, Repr

/-- `LogPublic` from the generated client, as consumed by `formatLog`. -/
structure LogPublic where
  id : String
  item_id : String
  date : Option String
  operator_name : String
  message : String
  deriving Repr

/-- Typed request bodies sent by the calls this layer issues. -/
inductive RequestBody where
  | itemCreate (d : ItemCreate)
  | logCreate (d : LogCreate)
  deriving DecidableEq, Repr

/-- The options record a generated-client method hands to its `request` core:
HTTP method, url template, path substitutions, integer query params, body. -/
structure RequestOptions where
  method : String
  url : String
  path : List (String × String) := []
  query : List (String × Option Int) := []
  body : Option RequestBody := none
  mediaType : Option String := none
  deriving DecidableEq, Repr

/-- Argument record of `ItemsService.readItems` (`skip`, `limit`, both
optional with default `{}`). -/
structure ItemsReadItemsData where
  skip : Option Int := none
  limit : Option Int := none
  deriving Repr

/-- `ItemsService.readItems`: GET `/api/v1/items/` with query skip/limit. -/
def ItemsService.readItems (data : ItemsReadItemsData := {}) : RequestOptions :=
  { method := "GET"
    url := "/api/v1/items/"
    query := [("skip", data.skip), ("limit", data.limit)] }

/-- Argument record of `ItemsService.createItem`. -/
structure ItemsCreateItemData where
  requestBody : ItemCreate
  deriving Repr

/-- `ItemsService.createItem`: POST `/api/v1/items/` with a JSON body. -/
def ItemsService.createItem (data : ItemsCreateItemData) : RequestOptions :=
  { method := "POST"
    url := "/api/v1/items/"
    body := some (.itemCreate data.requestBody)
    mediaType := some "application/json" }

/-- Argument record of `ItemsService.createItemLog`. -/
structure ItemsCreateItemLogData where
  requestBody : LogCreate
  deriving Repr

/-- `ItemsService.createItemLog`: POST `/api/v1/items/logs/{item_id}` with a
JSON body. -/
def ItemsService.createItemLog (data : ItemsCreateItemLogData) : RequestOptions :=
  { method := "POST"
    url := "/api/v1/items/logs/{item_id}"
    body := some (.logCreate data.requestBody)
    mediaType := some "application/json" }

/-- Argument record of `ItemsService.moveItem`. -/
structure ItemsMoveItemData where
  newLocation : String
  itemId : String
  deriving Repr

/-- `ItemsService.moveItem`: PUT `/api/v1/items/move/{item_id}_{new_location}`
with path substitutions. -/
def ItemsService.moveItem (data : ItemsMoveItemData) : RequestOptions :=
  { method := "PUT"
    url := "/api/v1/items/move/{item_id}_{new_location}"
    path := [("new_location", data.newLocation), ("item_id", data.itemId)] }

/-- Argument record of `ItemsService.readItemLogs`. -/
structure ItemsReadItemLogsData where
  itemId : String
  deriving Repr

/-- `ItemsService.readItemLogs`: GET `/api/v1/items/logs/{item_id}`. -/
def ItemsService.readItemLogs (data : ItemsReadItemLogsData) : RequestOptions :=
  { method := "GET"
    url := "/api/v1/items/logs/{item_id}"
    path := [("item_id", data.itemId)] }

/-- The fixed page size `PER_PAGE = 5` of the items table. -/
def PER_PAGE : Int := 5

/-- A React Query options record: the request the `queryFn` would issue and
the query key addressing the cache entry. -/
structure QueryOptions where
  queryFn : RequestOptions
  queryKey : List Json
  deriving Repr

/-- `getItemsQueryOptions({page})`: list query with
`skip = (page - 1) * PER_PAGE`, `limit = PER_PAGE`, keyed by
`["items", {page}]`. -/
def getItemsQueryOptions (page : Int) : QueryOptions :=
  { queryFn := ItemsService.readItems
      { skip := some ((page - 1) * PER_PAGE), limit := some PER_PAGE }
    queryKey := [.str "items", .obj [("page", .num page)]] }

/-- `hasNextPage` from `ItemsTable` (line 290):
`!isPlaceholderData && items?.data.length === PER_PAGE`. JavaScript optional
chaining makes the comparison false when `items` is `undefined`. -/
def hasNextPage (isPlaceholderData : Bool) (items : Option ItemsPublic) : Bool :=
  !isPlaceholderData &&
    decide (items.map (fun i => (i.data.length : Int)) = some PER_PAGE)

/-- `hasPreviousPage` from `ItemsTable` (line 291): `page > 1`. -/
def hasPreviousPage (page : Int) : Bool := decide (page > 1)

/-- Side effects run by the mutation callbacks of this layer: cache
invalidation (`queryClient.invalidateQueries`), toast notifications, form
reset, modal close, the log composer's `setNewLogMessage`, `console.log`, and
the shared `handleError` helper. -/
inductive Effect where
  | invalidate (key : List Json)
  | toast (title description status : String)
  | resetForm
  | closeModal
  | setLogMessage (v : Option String)
  | consoleLog
  | handleApiError
  deriving Repr

/-- A React Query mutation's callbacks, as configured at a `useMutation` call
site: effect lists for `onSuccess`, `onError`, `onSettled`. -/
structure MutationDef where
  onSuccess : List Effect
  onError : List Effect
  onSettled : List Effect := []
  deriving Repr

/-- How a settled write ended: the server call fulfilled or rejected. -/
inductive Outcome where
  | success
  | failure
  deriving DecidableEq, Repr

/-- React Query settlement semantics: on fulfillment run `onSuccess` then
`onSettled`; on rejection run `onError` then `onSettled`. -/
def settleEffects (m : MutationDef) : Outcome → List Effect
  | .success => m.onSuccess ++ m.onSettled
  | .failure => m.onError ++ m.onSettled

/-- The query keys a settled mutation invalidates: the `invalidate` effects
among its settlement effects. -/
def invalidationsOn (m : MutationDef) (o : Outcome) : List (List Json) :=
  (settleEffects m o).filterMap fun e =>
    match e with
    | .invalidate k => some k
    | _ => none

/-- The `AddItem` mutation's callbacks: success toast, `reset()`, `onClose()`
on success; `handleError` on error; invalidate `["items"]` on settlement. -/
def addItemMutation : MutationDef :=
  { onSuccess :=
      [.toast "Success!" "Item created successfully." "success", .resetForm, .closeModal]
    onError := [.handleApiError]
    onSettled := [.invalidate [.str "items"]] }

/-- `sendLogMutation`'s callbacks in `ItemDetails`: invalidate the item's log
key, success toast and clear the composer on success; `console.log` and
`handleError` on error; no `onSettled`. -/
def sendLogMutation (itemId : String) : MutationDef :=
  { onSuccess :=
      [.invalidate [.str "item_logs", .str itemId],
       .toast "Success!" "Log created successfully." "success",
       .setLogMessage (some "")]
    onError := [.consoleLog, .handleApiError] }

/-- `moveItemMutation`'s callbacks in `ItemDetails`: invalidate the item's log
key and the current page's items key on success; `handleError` on error; no
`onSettled`. `currentPage` is the `Route.useSearch()` object `{page}`. -/
def moveItemMutation (itemId : String) (currentPage : Int) : MutationDef :=
  { onSuccess :=
      [.invalidate [.str "item_logs", .str itemId],
       .invalidate [.str "items", .obj [("page", .num currentPage)]]]
    onError := [.handleApiError] }

/-- The `AddItem` form's `defaultValues`:
`{ title: "", description: "", type: "other" }`. -/
def addItemDefaultValues : ItemCreate :=
  { title := "", description := "", type := "other" }

/-- Validation of the `AddItem` title field as registered:
`register("title", { required: "Title is required." })` — an empty string
fails the `required` rule with that message. -/
def validateAddItemTitle (title : String) : Option String :=
  if title = "" then some "Title is required." else none

/-- `handleSubmit(onSubmit)` on the `AddItem` form: when the registered
validation rules fail, no submit happens and the field error is surfaced;
when they pass, `onSubmit` runs `mutation.mutate(data)`, issuing exactly the
one `createItem` call of the mutation's `mutationFn`. Returns the title field
error (if any) and the list of issued requests. -/
def handleSubmitAddItem (data : ItemCreate) : Option String × List RequestOptions :=
  match validateAddItemTitle data.title with
  | some e => (some e, [])
  | none => (none, [ItemsService.createItem { requestBody := data }])

/-- UI state of the `AddItem` form and its host: current form values, whether
the hosting modal is open, shown toasts, and the invalidation calls made. -/
structure AddItemUiState where
  formValues : ItemCreate
  modalOpen : Bool
  toasts : List (String × String × String) := []
  invalidated : List (List Json) := []
  deriving Repr

/-- Interpretation of a mutation-callback effect on the `AddItem` UI state:
`reset()` restores `defaultValues`, `onClose()` closes the modal, toasts and
invalidations are recorded; error surfacing does not touch this state. -/
def applyAddItemEffect (s : AddItemUiState) : Effect → AddItemUiState
  | .invalidate k => { s with invalidated := s.invalidated ++ [k] }
  | .toast t d st => { s with toasts := s.toasts ++ [(t, d, st)] }
  | .resetForm => { s with formValues := addItemDefaultValues }
  | .closeModal => { s with modalOpen := false }
  | _ => s

/-- A full submission of the `AddItem` form: validate, issue the create call
when valid, then run the mutation's settlement effects for the server's
outcome. Returns the issued requests and the resulting UI state. -/
def runAddItemSubmit (serverOutcome : Outcome) (s : AddItemUiState)
    (data : ItemCreate) : List RequestOptions × AddItemUiState :=
  match handleSubmitAddItem data with
  | (some _, _) => ([], s)
  | (none, reqs) =>
      (reqs, (settleEffects addItemMutation serverOutcome).foldl applyAddItemEffect s)

/-- The `AddItem` form seen as a machine over the in-flight window: whether a
submission is pending (`isSubmitting`) and how many create calls were issued.
react-hook-form holds `isSubmitting` true while the submission it started is
in flight. -/
structure AddItemFormMachine where
  isSubmitting : Bool
  createCalls : Nat
  deriving DecidableEq, Repr

/-- The Save button carries `isLoading={isSubmitting}`: Chakra renders an
`isLoading` button disabled. -/
def submitButtonDisabled (m : AddItemFormMachine) : Bool := m.isSubmitting

/-- One click on the Save button: a disabled button ignores the click; an
enabled one starts the submission (marking it in flight) and issues its
single create call. -/
def pressSubmit (m : AddItemFormMachine) : AddItemFormMachine :=
  if submitButtonDisabled m then m
  else { isSubmitting := true, createCalls := m.createCalls + 1 }

/-- Render state of `ItemsTable`: the page from the route search, the items
query's data, and its placeholder flag. -/
structure ItemsTableRenderState where
  page : Int
  items : Option ItemsPublic
  isPlaceholderData : Bool
  deriving Repr

/-- `hasNextPage` as computed by `ItemsTable` from its render state. -/
def tableHasNextPage (s : ItemsTableRenderState) : Bool :=
  hasNextPage s.isPlaceholderData s.items

/-- The `useEffect` of `ItemsTable` (lines 293–297): when `hasNextPage`,
prefetch the query options for `page + 1`; otherwise no prefetch. -/
def prefetchOnRender (s : ItemsTableRenderState) : Option QueryOptions :=
  if tableHasNextPage s then some (getItemsQueryOptions (s.page + 1)) else none

/-- A concrete item for concrete render states. -/
def sampleItem (id : String) : ItemPublic :=
  { id := id
    title := "Item " ++ id
    description := none
    type := "other"
    status := none
    location_id := none }

/-- A successful, non-placeholder render of a page holding only 3 items. -/
def shortPageRender : ItemsTableRenderState :=
  { page := 1
    items := some { data := [sampleItem "a", sampleItem "b", sampleItem "c"], count := 3 }
    isPlaceholderData := false }

/-- A non-placeholder render of a full page of `PER_PAGE = 5` items. -/
def fullPageRender : ItemsTableRenderState :=
  { page := 1
    items := some
      { data := [sampleItem "a", sampleItem "b", sampleItem "c",
                 sampleItem "d", sampleItem "e"]
        count := 12 }
    isPlaceholderData := false }

/-- Lookup of a key in a JavaScript object embedded as a key-value list; a
missing key reads as `undefined`. -/
def lookupJs (k : String) : List (String × JsValue) → JsValue
  | [] => .undefined
  | (k2, v) :: rest => if k2 = k then v else lookupJs k rest

/-- `z.number().catch(1)`: a JavaScript number parses to itself; any other
value (including `undefined` for a missing key) falls back to `1`. -/
def zNumberCatch1 : JsValue → Int
  | .num n => n
  | _ => 1

/-- `itemsSearchSchema.parse`: `z.object({ page: z.number().catch(1) })`
applied to the search object — read the `page` key and run the catch-guarded
number parser. -/
def itemsSearchSchemaParse (search : List (String × JsValue)) : Int :=
  zNumberCatch1 (lookupJs "page" search)

/-- `setPage` in `ItemsTable`: `navigate({search: prev => ({...prev, page})})`
writes the page number over the previous search object's `page` key. -/
def setPageSearch (prev : List (String × JsValue)) (page : Int) :
    List (String × JsValue) :=
  (prev.filter fun kv => kv.1 != "page") ++ [("page", .num page)]

/-- State of the `ItemDetails` view around the log composer: the composer's
message (`newLogMessage`, a nullable string), the cached log list for the
item, recorded invalidations and toasts. -/
structure ItemDetailsState where
  newLogMessage : Option String
  cachedLogs : List LogPublic
  invalidated : List (List Json) := []
  toasts : List (String × String × String) := []
  deriving Repr

/-- Interpretation of a mutation-callback effect on the `ItemDetails` state:
invalidations and toasts are recorded, `setNewLogMessage` updates the
composer; `console.log` and error surfacing do not touch the cache or the
composer. -/
def applyDetailsEffect (s : ItemDetailsState) : Effect → ItemDetailsState
  | .invalidate k => { s with invalidated := s.invalidated ++ [k] }
  | .toast t d st => { s with toasts := s.toasts ++ [(t, d, st)] }
  | .setLogMessage v => { s with newLogMessage := v }
  | _ => s

/-- `sendLogMutation`'s `mutationFn`: `if (!newLogMessage)` — null or the
empty string are falsy — reject with "No log message provided" before any
network call; otherwise issue `createItemLog` with the item id and message. -/
def sendLogMutationFn (itemId : String) : Option String → Except String RequestOptions
  | none => .error "No log message provided"
  | some m =>
      if m = "" then .error "No log message provided"
      else .ok (ItemsService.createItemLog
        { requestBody := { item_id := itemId, message := m } })

/-- One run of `sendLogMutation.mutate()`: the `mutationFn` either rejects
locally (no request, failure settlement) or issues its request, settling with
the server's outcome; the settlement effects update the view state. Returns
the issued requests, the settlement outcome, and the resulting state. -/
def runSendLogMutation (itemId : String) (serverOutcome : Outcome)
    (s : ItemDetailsState) : List RequestOptions × Outcome × ItemDetailsState :=
  match sendLogMutationFn itemId s.newLogMessage with
  | .error _ =>
      ([], .failure,
        (settleEffects (sendLogMutation itemId) .failure).foldl applyDetailsEffect s)
  | .ok req =>
      ([req], serverOutcome,
        (settleEffects (sendLogMutation itemId) serverOutcome).foldl applyDetailsEffect s)

/-- The textarea's `onKeyDown` handler (lines 236–240): when the key is
`"Enter"` with `ctrlKey`, run `sendLogMutation.mutate()`; any other keystroke
triggers nothing. -/
def logComposerKeyDown (key : String) (ctrlKey : Bool) (itemId : String)
    (serverOutcome : Outcome) (s : ItemDetailsState) :
    Option (List RequestOptions × Outcome × ItemDetailsState) :=
  if key = "Enter" && ctrlKey then some (runSendLogMutation itemId serverOutcome s)
  else none

/-- The send button's `onClick` handler (lines 244–246): run
`sendLogMutation.mutate()`. -/
def logComposerSendClick (itemId : String) (serverOutcome : Outcome)
    (s : ItemDetailsState) :
    Option (List RequestOptions × Outcome × ItemDetailsState) :=
  some (runSendLogMutation itemId serverOutcome s)

/-- A concrete log entry for concrete detail states. -/
def sampleLog : LogPublic :=
  { id := "log-1"
    item_id := "item-1"
    date := some "2024-01-01T00:00:00"
    operator_name := "op"
    message := "created" }

/- ------------------------------------------------------------------ -/
/- Theorems                                                            -/
/- ------------------------------------------------------------------ -/

/-- Helper: `hasNextPage` is true exactly when the data is not placeholder and
the fetched page holds exactly `PER_PAGE` items. -/
theorem hasNextPage_true_iff (ph : Bool) (items : Option ItemsPublic) :
    hasNextPage ph items = true ↔
      ph = false ∧ items.map (fun i => (i.data.length : Int)) = some PER_PAGE := by
  cases ph <;> simp [hasNextPage]

/-- C1: for every rendered items page, `hasNextPage` is true iff the
displayed data is not placeholder data and the fetched page holds exactly
`PER_PAGE = 5` items; in particular any fetched page of 3 items gives
`hasNextPage = false`. -/
theorem c1_hasNextPage_iff_full_fresh :
    PER_PAGE = 5 ∧
    (∀ (ph : Bool) (items : Option ItemsPublic),
      hasNextPage ph items = true ↔
        ph = false ∧ items.map (fun i => (i.data.length : Int)) = some PER_PAGE) ∧
    (∀ (ph : Bool) (i0 i1 i2 : ItemPublic) (c : Int),
      hasNextPage ph (some ⟨[i0, i1, i2], c⟩) = false) := by
  refine ⟨rfl, hasNextPage_true_iff, ?_⟩
  intro ph i0 i1 i2 c
  cases ph <;> simp [hasNextPage, PER_PAGE]

/-- Witness for C1: a concrete non-placeholder page of 3 items has
`hasNextPage = false`. -/
theorem c1_hasNextPage_iff_full_fresh_witness :
    hasNextPage false
      (some ⟨[sampleItem "a", sampleItem "b", sampleItem "c"], 3⟩) = false :=
  c1_hasNextPage_iff_full_fresh.2.2 false
    (sampleItem "a") (sampleItem "b") (sampleItem "c") 3

/-- C2: for every page number `p ≥ 1`, rendering the items list at page `p`
issues the list-items query — GET `/api/v1/items/` — with
`skip = (p − 1) × 5` and `limit = 5`. -/
theorem c2_page_query_skip_limit (p : Int) (hp : 1 ≤ p) :
    (getItemsQueryOptions p).queryFn.method = "GET" ∧
    (getItemsQueryOptions p).queryFn.url = "/api/v1/items/" ∧
    (getItemsQueryOptions p).queryFn.query =
      [("skip", some ((p - 1) * 5)), ("limit", some 5)] :=
  ⟨rfl, rfl, rfl⟩

/-- Witness for C2 at the concrete page `p = 3`. -/
theorem c2_page_query_skip_limit_witness :
    (getItemsQueryOptions 3).queryFn.query =
      [("skip", some ((3 - 1) * 5)), ("limit", some 5)] :=
  (c2_page_query_skip_limit 3 (by decide)).2.2

/-- C3 counterexample: the claim says every mutation of this layer runs an
invalidation step on settlement regardless of outcome, yet the send-log
mutation for item `"item-1"`, settling as a failure, runs no invalidation at
all (its `onError` only logs and surfaces the error, and it has no
`onSettled`) — likewise the move-item mutation on failure. -/
theorem c3_counterexample :
    invalidationsOn (sendLogMutation "item-1") Outcome.failure = [] ∧
    invalidationsOn (moveItemMutation "item-1" 1) Outcome.failure = [] :=
  ⟨rfl, rfl⟩

/-- C3 amended: only the create-item mutation invalidates on settlement
regardless of outcome (always `["items"]`); the append-log and move-item
mutations invalidate their dependent keys only on success and run no
invalidation when the write fails. -/
theorem c3_settlement_invalidation :
    (∀ o : Outcome, invalidationsOn addItemMutation o = [[.str "items"]]) ∧
    (∀ id : String, invalidationsOn (sendLogMutation id) .success =
      [[.str "item_logs", .str id]]) ∧
    (∀ (id : String) (p : Int), invalidationsOn (moveItemMutation id p) .success =
      [[.str "item_logs", .str id], [.str "items", .obj [("page", .num p)]]]) ∧
    (∀ id : String, invalidationsOn (sendLogMutation id) .failure = []) ∧
    (∀ (id : String) (p : Int), invalidationsOn (moveItemMutation id p) .failure = []) := by
  refine ⟨fun o => ?_, fun id => rfl, fun id p => rfl, fun id => rfl, fun id p => rfl⟩
  cases o <;> rfl

/-- C4: whenever an `AddItem` submission passes validation and the create
succeeds, exactly one create-item call was issued (the POST with the form
data), a success toast is shown, the form values are reset to the defaults
`title = ""`, `description = ""`, `type = "other"`, the hosting modal is
closed, and the `["items"]` key is invalidated. -/
theorem c4_addItem_success_effects (s : AddItemUiState) (data : ItemCreate)
    (hv : data.title ≠ "") :
    (runAddItemSubmit .success s data).1 =
      [ItemsService.createItem { requestBody := data }] ∧
    (runAddItemSubmit .success s data).1.length = 1 ∧
    (runAddItemSubmit .success s data).2.toasts =
      s.toasts ++ [("Success!", "Item created successfully.", "success")] ∧
    (runAddItemSubmit .success s data).2.formValues = addItemDefaultValues ∧
    addItemDefaultValues = { title := "", description := "", type := "other" } ∧
    (runAddItemSubmit .success s data).2.modalOpen = false ∧
    (runAddItemSubmit .success s data).2.invalidated =
      s.invalidated ++ [[.str "items"]] := by
  simp [runAddItemSubmit, handleSubmitAddItem, validateAddItemTitle, hv,
    settleEffects, addItemMutation, applyAddItemEffect, addItemDefaultValues]

/-- Witness for C4: a concrete successful submission resets the form to the
defaults and closes the modal. -/
theorem c4_addItem_success_effects_witness :
    (runAddItemSubmit .success
      { formValues := { title := "Half", description := "", type := "other" }
        modalOpen := true }
      { title := "My bike", description := "red", type := "other" }).2.formValues =
      addItemDefaultValues ∧
    (runAddItemSubmit .success
      { formValues := { title := "Half", description := "", type := "other" }
        modalOpen := true }
      { title := "My bike", description := "red", type := "other" }).2.modalOpen =
      false := by
  have h := c4_addItem_success_effects
    { formValues := { title := "Half", description := "", type := "other" }
      modalOpen := true }
    { title := "My bike", description := "red", type := "other" } (by decide)
  exact ⟨h.2.2.2.1, h.2.2.2.2.2.1⟩

/-- C5: submitting the `AddItem` form with an empty title issues no
create-item call and surfaces the `"Title is required."` error on the title
field. -/
theorem c5_empty_title_no_call (data : ItemCreate) (h : data.title = "") :
    (handleSubmitAddItem data).2 = [] ∧
    (handleSubmitAddItem data).1 = some "Title is required." := by
  simp [handleSubmitAddItem, validateAddItemTitle, h]

/-- Witness for C5 at a concrete form value with empty title. -/
theorem c5_empty_title_no_call_witness :
    (handleSubmitAddItem { title := "", description := "d", type := "other" }).2 = [] ∧
    (handleSubmitAddItem { title := "", description := "d", type := "other" }).1 =
      some "Title is required." :=
  c5_empty_title_no_call { title := "", description := "d", type := "other" } rfl

/-- C6: the Save button is disabled exactly while `isSubmitting`; a click
while a submission is in flight is a no-op, and two rapid clicks from an idle
form issue exactly one create call (the second click hits a disabled,
in-flight form). -/
theorem c6_submit_reentrancy_guard :
    (∀ m : AddItemFormMachine, submitButtonDisabled m = m.isSubmitting) ∧
    (∀ m : AddItemFormMachine, m.isSubmitting = true → pressSubmit m = m) ∧
    (∀ m : AddItemFormMachine, m.isSubmitting = false →
      (pressSubmit (pressSubmit m)).createCalls = m.createCalls + 1 ∧
      (pressSubmit (pressSubmit m)).isSubmitting = true) := by
  refine ⟨fun m => rfl, fun m h => ?_, fun m h => ?_⟩
  · simp [pressSubmit, submitButtonDisabled, h]
  · simp [pressSubmit, submitButtonDisabled, h]

/-- Witness for C6: from the idle form with no calls yet, two rapid clicks
issue exactly one call. -/
theorem c6_submit_reentrancy_guard_witness :
    (pressSubmit (pressSubmit ⟨false, 0⟩)).createCalls = 0 + 1 :=
  (c6_submit_reentrancy_guard.2.2 ⟨false, 0⟩ rfl).1

/-- C7 counterexample: `shortPageRender` is a successful render — data
present, not placeholder — yet no prefetch of the next page is issued,
because its 3-item page turns `hasNextPage` off; the claim's "on every
successful render" demands `some (getItemsQueryOptions 2)` here. -/
theorem c7_counterexample :
    shortPageRender.isPlaceholderData = false ∧
    shortPageRender.items.isSome = true ∧
    prefetchOnRender shortPageRender = none := by
  refine ⟨rfl, rfl, ?_⟩
  simp [prefetchOnRender, tableHasNextPage, hasNextPage, shortPageRender, PER_PAGE]

/-- C7 amended: the next page is speculatively prefetched exactly on those
renders whose displayed data is not placeholder data and whose fetched page
holds exactly `PER_PAGE` items (i.e. when `hasNextPage` is on); other
renders, successful ones included, prefetch nothing. -/
theorem c7_prefetch_iff_full_fresh (s : ItemsTableRenderState) :
    prefetchOnRender s = some (getItemsQueryOptions (s.page + 1)) ↔
      s.isPlaceholderData = false ∧
      s.items.map (fun i => (i.data.length : Int)) = some PER_PAGE := by
  rw [← hasNextPage_true_iff s.isPlaceholderData s.items]
  by_cases h : hasNextPage s.isPlaceholderData s.items = true
  · simp [prefetchOnRender, tableHasNextPage, h]
  · simp [prefetchOnRender, tableHasNextPage, h]

/-- Witness for C7's amended statement: the concrete full-page render does
prefetch page 2. -/
theorem c7_prefetch_iff_full_fresh_witness :
    prefetchOnRender fullPageRender =
      some (getItemsQueryOptions (fullPageRender.page + 1)) :=
  (c7_prefetch_iff_full_fresh fullPageRender).mpr
    ⟨rfl, by simp [fullPageRender, PER_PAGE]⟩

/-- C8: the page is read from the `page` search parameter and written back to
it by `setPage`; a missing parameter defaults to 1, a `page` value that is
not a number parses to 1, a numeric `page` parses to itself, and every
possible search input yields a number. -/
theorem c8_page_search_param :
    (itemsSearchSchemaParse [] = 1) ∧
    (∀ search : List (String × JsValue),
      (lookupJs "page" search).isNumber = false → itemsSearchSchemaParse search = 1) ∧
    (∀ (search : List (String × JsValue)) (n : Int),
      lookupJs "page" search = .num n → itemsSearchSchemaParse search = n) ∧
    (∀ (search : List (String × JsValue)) (p : Int),
      lookupJs "page" (setPageSearch search p) = .num p) ∧
    (∀ search : List (String × JsValue), ∃ n : Int, itemsSearchSchemaParse search = n) := by
  refine ⟨rfl, ?_, ?_, ?_, fun search => ⟨_, rfl⟩⟩
  · intro search h
    unfold itemsSearchSchemaParse
    cases hv : lookupJs "page" search <;>
      simp_all [JsValue.isNumber, zNumberCatch1]
  · intro search n h
    unfold itemsSearchSchemaParse
    rw [h]
    rfl
  · intro search p
    induction search with
    | nil => rfl
    | cons kv rest ih =>
        by_cases hk : kv.1 = "page"
        · simpa [setPageSearch, hk] using ih
        · obtain ⟨k2, v2⟩ := kv
          simp only at hk
          simpa [setPageSearch, lookupJs, hk] using ih

/-- Witness for C8: a non-numeric `page` value parses to 1. -/
theorem c8_page_search_param_witness :
    itemsSearchSchemaParse [("page", .str "abc")] = 1 :=
  c8_page_search_param.2.1 [("page", .str "abc")] rfl

/-- C9: pressing Ctrl+Enter in the log composer's textarea triggers exactly
the run `sendLogMutation.mutate()` that the send button's click triggers: on
every composer state, item, and server outcome, both handlers produce the
same requests, settlement outcome, and resulting state. -/
theorem c9_ctrl_enter_equals_click (itemId : String) (o : Outcome)
    (s : ItemDetailsState) :
    logComposerKeyDown "Enter" true itemId o s = logComposerSendClick itemId o s := by
  simp [logComposerKeyDown, logComposerSendClick]

/-- Witness for C9 at a concrete composer state. -/
theorem c9_ctrl_enter_equals_click_witness :
    logComposerKeyDown "Enter" true "item-1" .success
        { newLogMessage := some "hello", cachedLogs := [sampleLog] } =
      logComposerSendClick "item-1" .success
        { newLogMessage := some "hello", cachedLogs := [sampleLog] } :=
  c9_ctrl_enter_equals_click "item-1" .success
    { newLogMessage := some "hello", cachedLogs := [sampleLog] }

/-- C10: when the composer's message is null or empty, running the send-log
action issues no request, the mutation settles as a failure, and neither the
cached log list nor the set of invalidations changes. -/
theorem c10_falsy_message_no_request (itemId : String) (o : Outcome)
    (s : ItemDetailsState)
    (h : s.newLogMessage = none ∨ s.newLogMessage = some "") :
    (runSendLogMutation itemId o s).1 = [] ∧
    (runSendLogMutation itemId o s).2.1 = .failure ∧
    (runSendLogMutation itemId o s).2.2.cachedLogs = s.cachedLogs ∧
    (runSendLogMutation itemId o s).2.2.invalidated = s.invalidated := by
  have hfn : sendLogMutationFn itemId s.newLogMessage =
      .error "No log message provided" := by
    rcases h with h | h <;> simp [sendLogMutationFn, h]
  simp [runSendLogMutation, hfn, settleEffects, sendLogMutation, applyDetailsEffect]

/-- Witness for C10: the empty-string composer issues nothing and leaves the
cached log list as it was. -/
theorem c10_falsy_message_no_request_witness :
    (runSendLogMutation "item-1" .success
      { newLogMessage := some "", cachedLogs := [sampleLog] }).1 = [] ∧
    (runSendLogMutation "item-1" .success
      { newLogMessage := some "", cachedLogs := [sampleLog] }).2.2.cachedLogs =
      [sampleLog] := by
  have h := c10_falsy_message_no_request "item-1" .success
    { newLogMessage := some "", cachedLogs := [sampleLog] } (Or.inr rfl)
  exact ⟨h.1, h.2.2.1⟩

end GcBase
